import Mathlib

/-!
Shallow embedding of `examples/websocket/client.py`, the websocket console
client for the `wssrv.py` example.  The client reads lines from local
standard input and forwards them as text frames prefixed with the operator
name, while a dispatch loop reacts to inbound frames.  Effects (printing a
line, sending a frame on the websocket, stopping the event loop) are made
explicit as data so that the behaviour of each branch can be stated and
proved.
-/

/-- Frame kinds of `aiohttp.WSMsgType` the dispatch loop can receive. -/
inductive WSMsgType where
  | continuation
  | text
  | binary
  | ping
  | pong
  | close
  | closing
  | closed
  | error
  deriving DecidableEq, Repr

/-- An inbound websocket message: its kind and its payload (`msg.data`). -/
structure WSMessage where
  type : WSMsgType
  data : String
  deriving DecidableEq, Repr

/-- Observable side effects of the client. -/
inductive Effect where
  | print (line : String)
  | sendText (payload : String)
  | sendPong
  | sendClose
  deriving DecidableEq, Repr

/-- Whitespace characters stripped by Python `str.strip()` for ASCII data. -/
def isPySpace (c : Char) : Bool :=
  c = ' ' || c = '\t' || c = '\n' || c = '\r' || c = '\x0b' || c = '\x0c'

/-- Python `s.strip()`: remove leading and trailing whitespace. -/
def pyStrip (s : String) : String :=
  String.mk (((s.data.dropWhile isPySpace).reverse.dropWhile isPySpace).reverse)

/-- The line produced by Python `print(a, b)`: the two arguments joined by
the default separator, a single space. -/
def pyPrint2 (a b : String) : String :=
  a ++ " " ++ b

/-- One iteration of the `dispatch` loop body, for a received message `msg`,
where `exc` is the detail of `ws.exception()`.  Returns the effects of the
iteration and whether the loop continues (`false` when the trailing `break`
of the `else` branch runs). -/
def dispatchStep (exc : String) (msg : WSMessage) : List Effect × Bool :=
  if msg.type = WSMsgType.text then
    ([Effect.print (pyPrint2 "Text: " (pyStrip msg.data))], true)
  else if msg.type = WSMsgType.binary then
    ([Effect.print (pyPrint2 "Binary: " msg.data)], true)
  else if msg.type = WSMsgType.ping then
    ([Effect.sendPong], true)
  else if msg.type = WSMsgType.pong then
    ([Effect.print "Pong received"], true)
  else
    ((if msg.type = WSMsgType.close then [Effect.sendClose]
      else if msg.type = WSMsgType.error then
        [Effect.print ("Error during receive " ++ exc)]
      else []),
     false)

/-- The `dispatch` loop run over a stream of inbound messages: effects of
each iteration are accumulated until an iteration breaks out of the loop. -/
def dispatch (exc : String) : List WSMessage → List Effect
  | [] => []
  | msg :: rest =>
    let step := dispatchStep exc msg
    if step.2 then step.1 ++ dispatch exc rest else step.1

/-- Action taken by one invocation of `stdin_callback`. -/
inductive StdinAction where
  | stopLoop
  | send (e : Effect)
  deriving DecidableEq, Repr

/-- The `stdin_callback` reader: `line` is the decoded result of
`sys.stdin.buffer.readline()`.  An empty read (EOF) stops the event loop;
otherwise the line is sent prefixed with the operator name. -/
def stdin_callback (name line : String) : StdinAction :=
  if line = "" then StdinAction.stopLoop
  else StdinAction.send (Effect.sendText (name ++ ": " ++ line))

/-- Modelled from the spec: the handshake performed by aiohttp's
`ws_connect` (library code, not under `src/`) either yields a session or
raises a `ConnectionError`; `start_client` does not catch it and the spec
states that connection-open failure is fatal, with no retry. -/
inductive HandshakeResult where
  | ok
  | connError (detail : String)
  deriving DecidableEq, Repr

/-- The whole `start_client` driver: open the connection once, then run the
dispatch loop; a handshake failure propagates as a fatal error and nothing
else happens. -/
def start_client (h : HandshakeResult) (exc : String) (frames : List WSMessage) :
    Except String (List Effect) :=
  match h with
  | HandshakeResult.connError d => Except.error d
  | HandshakeResult.ok => Except.ok (dispatch exc frames)

/-- Whether the host argument contains a colon (`':' in args.host`). -/
def hostHasColon (h : String) : Bool :=
  h.data.contains ':'

/-- Part of the host before the first colon (`host.split(':', 1)[0]`). -/
def hostBeforeColon (h : String) : String :=
  String.mk (h.data.takeWhile (fun c => c ≠ ':'))

/-- Part of the host after the first colon (`host.split(':', 1)[1]`). -/
def hostAfterColon (h : String) : String :=
  String.mk ((h.data.dropWhile (fun c => c ≠ ':')).tail)

/-- Decimal value of an ASCII digit, `none` for any other character. -/
def digitVal (c : Char) : Option Nat :=
  if '0' ≤ c ∧ c ≤ '9' then some (c.toNat - '0'.toNat) else none

/-- Parse a non-empty run of decimal digits into a natural number. -/
def parseNatDigits (l : List Char) : Option Nat :=
  match l with
  | [] => none
  | _ =>
    l.foldl
      (fun acc c =>
        match acc, digitVal c with
        | some n, some d => some (n * 10 + d)
        | _, _ => none)
      (some 0)

/-- Python `int(s)` restricted to an optional leading minus sign followed by
decimal digits; `none` models the `ValueError` raised on other input. -/
def pyInt (s : String) : Option Int :=
  match s.data with
  | '-' :: rest => (parseNatDigits rest).map (fun n => -(n : Int))
  | l => (parseNatDigits l).map (fun n => (n : Int))

/-- Resolve the effective host and port from the `--host` and `--port`
arguments: a `host:port` form overrides `--port` (`none` models the
`ValueError` abort of `int(port)`). -/
def resolveHostPort (host : String) (port : Int) : Option (String × Int) :=
  if hostHasColon host then
    match pyInt (hostAfterColon host) with
    | some p => some (hostBeforeColon host, p)
    | none => none
  else
    some (host, port)

/-- The connection URL built by `__main__`:
`'http://{}:{}/ws/'.format(host, port)`. -/
def buildURL (host : String) (port : Int) : String :=
  "http://" ++ host ++ ":" ++ toString port ++ "/ws/"

/-- URL the `__main__` block connects to, from the raw CLI arguments. -/
def mainURL (host : String) (port : Int) : Option String :=
  match resolveHostPort host port with
  | some (h, p) => some (buildURL h p)
  | none => none

/-- C1: for every operator name and every non-empty line read from local
input, the callback sends exactly one text frame whose payload is the name,
the literal ": ", and the line; in particular name "Alice" with line
"hello" sends payload "Alice: hello". -/
theorem stdin_callback_sends_name_line (name line : String) (h : line ≠ "") :
    stdin_callback name line =
      StdinAction.send (Effect.sendText (name ++ ": " ++ line)) ∧
    stdin_callback "Alice" "hello" =
      StdinAction.send (Effect.sendText "Alice: hello") := by
  constructor
  · simp [stdin_callback, h]
  · decide

/-- Witness for C1 at name "Alice", line "hello". -/
theorem stdin_callback_sends_name_line_witness :
    stdin_callback "Alice" "hello" =
      StdinAction.send (Effect.sendText "Alice: hello") :=
  (stdin_callback_sends_name_line "Alice" "hello" (by decide)).2

/-- C2 counterexample: on payload "hi" the printed line is not the literal
"Text: " directly concatenated with the stripped payload, because Python
`print` with two arguments inserts its separator space. -/
theorem text_print_exact_concat_cex :
    (dispatchStep "" { type := WSMsgType.text, data := "hi" }).1 ≠
      [Effect.print ("Text: " ++ pyStrip "hi")] := by
  decide

/-- C2 amended: for every inbound text frame with payload P, the iteration
produces exactly one printed line, equal to "Text: " followed by the
separator space of `print` and the stripped payload, and has no other
effect: no frame is sent and the loop continues. -/
theorem text_frame_prints_once (exc P : String) :
    dispatchStep exc { type := WSMsgType.text, data := P } =
      ([Effect.print ("Text: " ++ " " ++ pyStrip P)], true) := by
  rfl

/-- C3: the text frame whose payload is "  hi there  " produces exactly the
printed line "Text:  hi there": the prefix, two spaces (one from the
literal, one from the `print` separator), and the stripped text. -/
theorem text_scenario_hi_there (exc : String) :
    dispatchStep exc { type := WSMsgType.text, data := "  hi there  " } =
      ([Effect.print "Text:  hi there"], true) := by
  rfl

/-- C4: every inbound ping frame causes exactly one pong frame to be sent,
nothing is printed, no other frame is sent, and the loop continues. -/
theorem ping_frame_sends_pong (exc P : String) :
    dispatchStep exc { type := WSMsgType.ping, data := P } =
      ([Effect.sendPong], true) := by
  rfl

/-- C5: an inbound close frame causes exactly one close frame to be sent in
reply, the loop exits, no error line is printed, and no frame received
afterwards is ever processed. -/
theorem close_frame_replies_then_exits (exc P : String) (rest : List WSMessage) :
    dispatch exc ({ type := WSMsgType.close, data := P } :: rest) =
      [Effect.sendClose] := by
  rfl

/-- C6: when local input reaches end of stream (the read yields no bytes),
the callback stops the event loop as normal termination and sends no
frame. -/
theorem stdin_eof_stops_loop (name : String) :
    stdin_callback name "" = StdinAction.stopLoop := by
  rfl

/-- C7: if the handshake does not complete, opening fails with the
connection-error kind and the driver terminates immediately with that
error: no retry happens and no effect is ever produced. -/
theorem handshake_failure_is_fatal (d exc : String) (frames : List WSMessage) :
    start_client (HandshakeResult.connError d) exc frames = Except.error d := by
  rfl

/-- C8: when the `--host` argument contains a colon, the part after the
first colon parses as an integer that overrides `--port`, the part before
the first colon becomes the host, and the URL built is exactly
`http://<host>:<port>/ws/`. -/
theorem cli_host_colon_overrides_port (H : String) (P p : Int)
    (hc : hostHasColon H = true) (hp : pyInt (hostAfterColon H) = some p) :
    mainURL H P =
      some ("http://" ++ hostBeforeColon H ++ ":" ++ toString p ++ "/ws/") := by
  simp [mainURL, resolveHostPort, hc, hp, buildURL]

/-- Witness for C8 at host "127.0.0.1:9001" and default port 8080. -/
theorem cli_host_colon_overrides_port_witness :
    mainURL "127.0.0.1:9001" 8080 = some "http://127.0.0.1:9001/ws/" := by
  have h := cli_host_colon_overrides_port "127.0.0.1:9001" 8080 9001
    (by decide) (by decide)
  simpa using h

/-- C9: an inbound error-kind frame causes the captured exception detail to
be printed exactly once, after which the loop exits; nothing received
afterwards is processed and no frame is sent. -/
theorem error_frame_prints_then_exits (exc P : String) (rest : List WSMessage) :
    dispatch exc ({ type := WSMsgType.error, data := P } :: rest) =
      [Effect.print ("Error during receive " ++ exc)] := by
  rfl

/-- C10: every frame whose kind is not text, binary, ping or pong makes the
loop exit after that iteration: the trailing break of the else branch runs
unconditionally, only close and error kinds produce an effect there, and
any other kind (closed, closing, continuation) terminates silently. -/
theorem else_branch_always_breaks (exc : String) (msg : WSMessage)
    (rest : List WSMessage)
    (h1 : msg.type ≠ WSMsgType.text) (h2 : msg.type ≠ WSMsgType.binary)
    (h3 : msg.type ≠ WSMsgType.ping) (h4 : msg.type ≠ WSMsgType.pong) :
    (dispatchStep exc msg).2 = false ∧
    dispatch exc (msg :: rest) = (dispatchStep exc msg).1 ∧
    (msg.type ≠ WSMsgType.close → msg.type ≠ WSMsgType.error →
      (dispatchStep exc msg).1 = []) := by
  have hstep : dispatchStep exc msg =
      ((if msg.type = WSMsgType.close then [Effect.sendClose]
        else if msg.type = WSMsgType.error then
          [Effect.print ("Error during receive " ++ exc)]
        else []), false) := by
    simp [dispatchStep, h1, h2, h3, h4]
  refine ⟨by rw [hstep], by simp [dispatch, hstep], ?_⟩
  intro h5 h6
  rw [hstep]
  simp [h5, h6]

/-- Witness for C10 at a closing-notification frame. -/
theorem else_branch_always_breaks_witness :
    (dispatchStep "" { type := WSMsgType.closing, data := "" }).2 = false ∧
    dispatch "" ({ type := WSMsgType.closing, data := "" } :: []) =
      (dispatchStep "" { type := WSMsgType.closing, data := "" }).1 ∧
    ((WSMessage.mk WSMsgType.closing "").type ≠ WSMsgType.close →
      (WSMessage.mk WSMsgType.closing "").type ≠ WSMsgType.error →
      (dispatchStep "" { type := WSMsgType.closing, data := "" }).1 = []) :=
  else_branch_always_breaks "" { type := WSMsgType.closing, data := "" } []
    (by decide) (by decide) (by decide) (by decide)
